import Mathlib

/-!
Shallow embedding of the BananINT frontend game services
(src/app/services/enhanced-game/enhanced-game.ts and
src/app/services/game/game.ts).

JavaScript numbers are modelled as rationals; counters are naturals;
timestamps are rationals holding epoch milliseconds.  Each remote
operation is modelled as a total function that consumes one transport
outcome (Except Unit response: a transport failure or a parsed
response) and returns the new service state together with its result
and the number of requests it issued.  The asynchronous sync path is
additionally modelled as a two-phase transition system (request issue,
response delivery) to reason about overlapping attempts.
-/

namespace EnhancedGame

/-- The GameState record of enhanced-game.ts.  The activeBoosts array
carries payloads the modelled logic never inspects, so its elements are
modelled as Unit. -/
structure GameState where
  sessionId : String
  bananas : ℚ
  bananasPerClick : ℚ
  bananasPerSecond : ℚ
  totalClicks : ℕ
  lastSyncTime : ℚ
  bananaDNA : ℚ
  totalBananasEarned : ℚ
  prestigeCount : ℕ
  selectedSkin : String
  ownedSkins : List String
  activeBoosts : List Unit
  lastEventCheck : ℚ
deriving Repr, DecidableEq

/-- The upgrade tier tags of enhanced-game.ts. -/
inductive UpgradeKind
  | click
  | auto
  | boost
  | prestige
  | synergy
deriving Repr, DecidableEq

/-- The UpgradeType record of enhanced-game.ts (unlockRequirement is an
opaque payload the modelled logic never inspects). -/
structure UpgradeType where
  id : String
  name : String
  baseCost : ℚ
  multiplier : ℚ
  type : UpgradeKind
  owned : ℕ
  description : Option String := none
deriving Repr, DecidableEq

/-- The Achievement record (requirement and reward payloads are opaque
to the modelled logic). -/
structure Achievement where
  id : String
  name : String
  description : String
  unlocked : Bool
  unlockedAt : Option String := none
deriving Repr, DecidableEq

/-- The event kind tags of enhanced-game.ts. -/
inductive EventKind
  | rain
  | golden
  | festival
deriving Repr, DecidableEq

/-- The ActiveEvent record. -/
structure ActiveEvent where
  id : String
  type : EventKind
  startTime : ℚ
  duration : ℚ
  multiplier : Option ℚ
  active : Bool
deriving Repr, DecidableEq

/-- The LeaderboardEntry record. -/
structure LeaderboardEntry where
  name : String
  score : ℚ
  date : String
  prestigeCount : ℕ
deriving Repr, DecidableEq

/-- The signal state of the EnhancedGame service: public signals plus
the private pendingClicks counter and the lastSyncSignal timestamp.
The upgrades Map is modelled as an association list keyed by id. -/
structure Service where
  gameState : GameState
  upgrades : List (String × UpgradeType)
  leaderboard : List LeaderboardEntry
  achievements : List Achievement
  activeEvents : List ActiveEvent
  loading : Bool
  playerName : String
  clickCooldown : Bool
  newAchievements : List Achievement
  lastSync : ℚ
  pendingClicks : ℕ
deriving Repr, DecidableEq

/-- JS Map.set : replace the entry when the key exists, append otherwise. -/
def mapSet (m : List (String × UpgradeType)) (u : UpgradeType) :
    List (String × UpgradeType) :=
  if m.any (fun p => p.1 = u.id) then
    m.map (fun p => if p.1 = u.id then (u.id, u) else p)
  else m ++ [(u.id, u)]

/-- response.upgrades.forEach(u => upgradesMap.set(u.id, u)). -/
def buildUpgradesMap (us : List UpgradeType) : List (String × UpgradeType) :=
  us.foldl mapSet []

/-- canAffordUpgrade: the relevant accumulator must be at least the cost. -/
def canAffordUpgrade (st : GameState) (cost : ℚ) (isDNA : Bool) : Bool :=
  if isDNA then decide (cost ≤ st.bananaDNA) else decide (cost ≤ st.bananas)

/-- canPrestige: totalBananasEarned at least one billion. -/
def canPrestige (st : GameState) : Bool :=
  decide ((1000000000 : ℚ) ≤ st.totalBananasEarned)

/-- prestigeDNAReward: Math.floor(totalBananasEarned / 100_000_000). -/
def prestigeDNAReward (st : GameState) : ℤ :=
  ⌊st.totalBananasEarned / 100000000⌋

/-- calculateUpgradeCost of enhanced-game.ts: flat baseCost for the
prestige tier, otherwise Math.floor(baseCost * 1.15 ^ owned). -/
def calculateUpgradeCost (u : UpgradeType) : ℚ :=
  if u.type = UpgradeKind.prestige then u.baseCost
  else (⌊u.baseCost * (1.15 : ℚ) ^ u.owned⌋ : ℤ)

/-- formatNumber uses Number.prototype.toFixed, which renders the
nearest multiple of 10 ^ (-digits), ties toward the larger value for
the non-negative inputs in scope; modelled over rationals. -/
def padTwo (r : ℕ) : String :=
  if r < 10 then "0" ++ toString r else toString r

/-- (q).toFixed(2) for non-negative q. -/
def toFixed2 (q : ℚ) : String :=
  let n : ℤ := ⌊q * 100 + 1 / 2⌋
  toString (n / 100) ++ "." ++ padTwo (n % 100).toNat

/-- (q).toFixed(1) for non-negative q. -/
def toFixed1 (q : ℚ) : String :=
  let n : ℤ := ⌊q * 10 + 1 / 2⌋
  toString (n / 10) ++ "." ++ toString (n % 10).toNat

/-- formatNumber of enhanced-game.ts. -/
def formatNumber (num : ℚ) : String :=
  if (1000000000 : ℚ) ≤ num then toFixed2 (num / 1000000000) ++ "B"
  else if (1000000 : ℚ) ≤ num then toFixed2 (num / 1000000) ++ "M"
  else if (1000 : ℚ) ≤ num then toFixed1 (num / 1000) ++ "K"
  else toString ⌊num⌋

/-- handleClick: dropped while the cooldown flag is set; otherwise sets
the cooldown flag (its later expiry is a separate event), increments
pendingClicks, and applies the optimistic update.  The returned Boolean
records whether the pending threshold triggered an immediate sync. -/
def handleClick (s : Service) : Service × Bool :=
  if s.clickCooldown then (s, false)
  else
    let gs := s.gameState
    let s' : Service :=
      { s with
        clickCooldown := true
        pendingClicks := s.pendingClicks + 1
        gameState :=
          { gs with
            bananas := gs.bananas + gs.bananasPerClick
            totalClicks := gs.totalClicks + 1
            totalBananasEarned := gs.totalBananasEarned + gs.bananasPerClick } }
    (s', decide (10 ≤ s'.pendingClicks))

/-- Expiry of the 100 ms click cooldown (the setTimeout callback). -/
def cooldownExpire (s : Service) : Service :=
  { s with clickCooldown := false }

/-- One firing of the startAutoGeneration interval. -/
def autoGenerationTick (s : Service) : Service :=
  if 0 < s.gameState.bananasPerSecond then
    { s with
      gameState :=
        { s.gameState with
          bananas := s.gameState.bananas + s.gameState.bananasPerSecond
          totalBananasEarned :=
            s.gameState.totalBananasEarned + s.gameState.bananasPerSecond } }
  else s

/-- calculateOfflineEarnings of enhanced-game.ts at wall-clock time now
(epoch milliseconds).  Note that lastSyncTime is not advanced. -/
def calculateOfflineEarnings (s : Service) (now : ℚ) : Service :=
  let st := s.gameState
  let timeDiff := (now - st.lastSyncTime) / 1000
  if 60 < timeDiff ∧ 0 < st.bananasPerSecond then
    let maxOfflineTime : ℚ := 8 * 60 * 60
    let offlineTime := min timeDiff maxOfflineTime
    let offlineEarnings : ℤ := ⌊offlineTime * st.bananasPerSecond⌋
    if 0 < offlineEarnings then
      { s with
        gameState :=
          { st with
            bananas := st.bananas + offlineEarnings
            totalBananasEarned := st.totalBananasEarned + offlineEarnings } }
    else s
  else s

/-- The offline award as a function of elapsed seconds, rate and window,
following the body of calculateOfflineEarnings (the source hardcodes
maxWindowSeconds to 8 * 60 * 60 = 28800). -/
def offlineEarningsAward (elapsedSeconds ratePerSecond maxWindowSeconds : ℚ) : ℤ :=
  if 60 < elapsedSeconds ∧ 0 < ratePerSecond then
    ⌊min elapsedSeconds maxWindowSeconds * ratePerSecond⌋
  else 0

/-- A transport outcome: Except.error for a network or HTTP failure
caught by the catch block, Except.ok for a parsed response body. -/
def Transport (α : Type) : Type := Except Unit α

/-- Response body of POST /sync. -/
structure SyncResponse where
  success : Bool
  gameState : GameState
  achievements : List Achievement
  activeEvents : List ActiveEvent
  leaderboard : List LeaderboardEntry
deriving Repr, DecidableEq

/-- Response body of POST /upgrade. -/
structure UpgradeResponse where
  success : Bool
  gameState : GameState
  upgrades : List UpgradeType
  achievements : List Achievement
  message : Option String
deriving Repr, DecidableEq

/-- Response body of POST /prestige. -/
structure PrestigeResponse where
  success : Bool
  gameState : GameState
  upgrades : List UpgradeType
  bananaDNAGained : ℚ
  message : String
deriving Repr, DecidableEq

/-- Response body of POST /reset. -/
structure ResetResponse where
  success : Bool
  gameState : GameState
  upgrades : List UpgradeType
deriving Repr, DecidableEq

/-- Response body of POST /submit-score. -/
structure SubmitScoreResponse where
  success : Bool
  leaderboard : List LeaderboardEntry
  message : Option String
deriving Repr, DecidableEq

/-- checkNewAchievements: collects achievements newly unlocked relative
to the current signal, then replaces the achievements signal. -/
def checkNewAchievements (s : Service) (latest : List Achievement) : Service :=
  let currentUnlocked := (s.achievements.filter (fun a => a.unlocked)).map (fun a => a.id)
  let newlyUnlocked :=
    latest.filter (fun a => a.unlocked && !(currentUnlocked.contains a.id))
  let s' :=
    if newlyUnlocked.length > 0 then { s with newAchievements := newlyUnlocked } else s
  { s' with achievements := latest }

/-- Result type of buyUpgrade and submitScore. -/
structure OpResult where
  success : Bool
  message : Option String
deriving Repr, DecidableEq

/-- Result type of prestige. -/
structure PrestigeResult where
  success : Bool
  dnaGained : ℚ
  message : String
deriving Repr, DecidableEq

/-- syncWithServer at wall-clock time now, consuming one transport
outcome.  Returns the new service state and the number of requests
issued (0 when the staleness guard skips the attempt, 1 otherwise). -/
def syncWithServer (s : Service) (now : ℚ) (t : Transport SyncResponse) :
    Service × ℕ :=
  if s.pendingClicks = 0 ∧ now - s.lastSync < 10000 then (s, 0)
  else
    match t with
    | Except.error _ => (s, 1)
    | Except.ok r =>
      if r.success then
        let s1 := { s with gameState := r.gameState }
        let s2 := checkNewAchievements s1 r.achievements
        ({ s2 with
            activeEvents := r.activeEvents
            leaderboard := r.leaderboard
            pendingClicks := 0
            lastSync := now }, 1)
      else (s, 1)

/-- buyUpgrade: local pre-checks (existence, affordability) issue no
request; otherwise one request is issued and a successful response
replaces the state wholesale. -/
def buyUpgrade (s : Service) (upgradeId : String) (t : Transport UpgradeResponse) :
    Service × OpResult × ℕ :=
  match s.upgrades.lookup upgradeId with
  | none => (s, ⟨false, some "Upgrade not found"⟩, 0)
  | some upgrade =>
    let cost := calculateUpgradeCost upgrade
    let isDNA := upgrade.type = UpgradeKind.prestige
    if !canAffordUpgrade s.gameState cost isDNA then
      (s, ⟨false, some (if isDNA then "Not enough DNA" else "Not enough bananas")⟩, 0)
    else
      match t with
      | Except.error _ => (s, ⟨false, some "Network error"⟩, 1)
      | Except.ok r =>
        if r.success then
          let s1 := { s with gameState := r.gameState, upgrades := buildUpgradesMap r.upgrades }
          let s2 := checkNewAchievements s1 r.achievements
          (s2, ⟨true, none⟩, 1)
        else (s, ⟨false, r.message⟩, 1)

/-- prestige: gated locally by canPrestige (no request below the
threshold); a successful response replaces the state wholesale. -/
def prestige (s : Service) (t : Transport PrestigeResponse) :
    Service × PrestigeResult × ℕ :=
  if !canPrestige s.gameState then
    (s, ⟨false, 0, "Need 1 billion lifetime bananas"⟩, 0)
  else
    match t with
    | Except.error _ => (s, ⟨false, 0, "Network error"⟩, 1)
    | Except.ok r =>
      if r.success then
        ({ s with gameState := r.gameState, upgrades := buildUpgradesMap r.upgrades },
         ⟨true, r.bananaDNAGained, r.message⟩, 1)
      else (s, ⟨false, 0, r.message⟩, 1)

/-- resetGame: a successful response replaces the state wholesale;
failures change nothing. -/
def resetGame (s : Service) (t : Transport ResetResponse) : Service × ℕ :=
  match t with
  | Except.error _ => (s, 1)
  | Except.ok r =>
    if r.success then
      ({ s with gameState := r.gameState, upgrades := buildUpgradesMap r.upgrades }, 1)
    else (s, 1)

/-- submitScore: empty trimmed names are rejected locally; otherwise a
sync is forced first (with its own transport outcome), then one
submit-score request is issued. -/
def submitScore (s : Service) (name : String) (now : ℚ)
    (tSync : Transport SyncResponse) (tSubmit : Transport SubmitScoreResponse) :
    Service × OpResult × ℕ :=
  let trimmedName := name.trim
  if trimmedName = "" then (s, ⟨false, some "Name cannot be empty"⟩, 0)
  else
    let p := syncWithServer s now tSync
    match tSubmit with
    | Except.error _ => (p.1, ⟨false, some "Network error"⟩, p.2 + 1)
    | Except.ok r =>
      if r.success then
        ({ p.1 with playerName := trimmedName, leaderboard := r.leaderboard },
         ⟨r.success, r.message⟩, p.2 + 1)
      else (p.1, ⟨r.success, r.message⟩, p.2 + 1)

/-- The events a session can observe, with the transport outcome each
remote operation consumes supplied as data. -/
inductive Step
  | click
  | cooldownEnd
  | tick
  | offline (now : ℚ)
  | sync (now : ℚ) (t : Transport SyncResponse)
  | buy (upgradeId : String) (t : Transport UpgradeResponse)
  | doPrestige (t : Transport PrestigeResponse)
  | doReset (t : Transport ResetResponse)

/-- The effect of one step on the service state. -/
def applyStep (s : Service) (st : Step) : Service :=
  match st with
  | Step.click => (handleClick s).1
  | Step.cooldownEnd => cooldownExpire s
  | Step.tick => autoGenerationTick s
  | Step.offline now => calculateOfflineEarnings s now
  | Step.sync now t => (syncWithServer s now t).1
  | Step.buy upgradeId t => (buyUpgrade s upgradeId t).1
  | Step.doPrestige t => (prestige s t).1
  | Step.doReset t => (resetGame s t).1

/-- A session run: fold the steps over an initial service state. -/
def run (s : Service) (steps : List Step) : Service :=
  steps.foldl applyStep s

/-- Steps that touch only local state: direct interaction, cooldown
expiry, passive tick, offline award. -/
def Step.isLocal : Step → Prop
  | Step.click => True
  | Step.cooldownEnd => True
  | Step.tick => True
  | Step.offline _ => True
  | _ => False

/-- Two-phase view of the asynchronous syncWithServer: a trigger checks
the staleness guard and issues the request, and the awaited response is
delivered later.  inFlight counts requests issued and not yet resolved. -/
structure SyncSys where
  svc : Service
  inFlight : ℕ
deriving Repr, DecidableEq

/-- Events of the two-phase sync system. -/
inductive SyncEvent
  | trigger (now : ℚ)
  | deliver (now : ℚ) (t : Transport SyncResponse)

/-- One transition of the two-phase sync system.  A trigger issues a
request exactly when the staleness guard passes; the source has no
in-flight flag, so the guard is re-evaluated from pendingClicks and
lastSync alone.  A delivery resolves one outstanding request and, on a
successful response, applies the success path of syncWithServer. -/
def syncSysStep (sys : SyncSys) (e : SyncEvent) : SyncSys :=
  match e with
  | SyncEvent.trigger now =>
    if sys.svc.pendingClicks = 0 ∧ now - sys.svc.lastSync < 10000 then sys
    else { sys with inFlight := sys.inFlight + 1 }
  | SyncEvent.deliver now t =>
    if sys.inFlight = 0 then sys
    else
      match t with
      | Except.error _ => { sys with inFlight := sys.inFlight - 1 }
      | Except.ok r =>
        if r.success then
          let s1 := { sys.svc with gameState := r.gameState }
          let s2 := checkNewAchievements s1 r.achievements
          { svc :=
              { s2 with
                activeEvents := r.activeEvents
                leaderboard := r.leaderboard
                pendingClicks := 0
                lastSync := now }
            inFlight := sys.inFlight - 1 }
        else { sys with inFlight := sys.inFlight - 1 }

/-- A run of the two-phase sync system. -/
def syncSysRun (sys : SyncSys) (es : List SyncEvent) : SyncSys :=
  es.foldl syncSysStep sys

/-- A concrete game state used to evaluate the model. -/
def baseState : GameState :=
  { sessionId := "s"
    bananas := 100
    bananasPerClick := 1
    bananasPerSecond := 0
    totalClicks := 0
    lastSyncTime := 0
    bananaDNA := 0
    totalBananasEarned := 100
    prestigeCount := 0
    selectedSkin := "default"
    ownedSkins := ["default"]
    activeBoosts := []
    lastEventCheck := 0 }

/-- A concrete standard-tier upgrade. -/
def sampleUpgrade : UpgradeType :=
  { id := "u1"
    name := "Better Fingers"
    baseCost := 10
    multiplier := 1
    type := UpgradeKind.click
    owned := 0 }

/-- A concrete service state used to evaluate the model. -/
def sampleService : Service :=
  { gameState := baseState
    upgrades := [("u1", sampleUpgrade)]
    leaderboard := []
    achievements := []
    activeEvents := []
    loading := false
    playerName := ""
    clickCooldown := false
    newAchievements := []
    lastSync := 0
    pendingClicks := 0 }

/-- A sync response the server rejected (success := false). -/
def failSyncResponse : SyncResponse :=
  { success := false, gameState := baseState, achievements := []
    activeEvents := [], leaderboard := [] }

/-- An upgrade response the server rejected. -/
def failUpgradeResponse : UpgradeResponse :=
  { success := false, gameState := baseState, upgrades := []
    achievements := [], message := some "Not enough bananas" }

/-- A prestige response the server rejected. -/
def failPrestigeResponse : PrestigeResponse :=
  { success := false, gameState := baseState, upgrades := []
    bananaDNAGained := 0, message := "Need 1 billion lifetime bananas" }

/-- A reset response the server rejected. -/
def failResetResponse : ResetResponse :=
  { success := false, gameState := baseState, upgrades := [] }

/-- A submit-score response the server rejected. -/
def failSubmitResponse : SubmitScoreResponse :=
  { success := false, leaderboard := [], message := some "Invalid session" }

/-- A successful upgrade response used to exercise the wholesale
replacement path. -/
def okUpgradeResponse : UpgradeResponse :=
  { success := true
    gameState := { baseState with bananas := 90 }
    upgrades := [{ sampleUpgrade with owned := 1 }]
    achievements := []
    message := none }

/-- A successful sync response whose authoritative state carries a
smaller lifetime total than the optimistic one, and a lifetime total
below its own spendable balance. -/
def regressingSyncResponse : SyncResponse :=
  { success := true
    gameState := { baseState with bananas := 60, totalBananasEarned := 50 }
    achievements := []
    activeEvents := []
    leaderboard := [] }

/-- A concrete prestige-tier upgrade. -/
def samplePrestigeUpgrade : UpgradeType :=
  { sampleUpgrade with
    id := "p1"
    name := "DNA Boost"
    baseCost := 5
    type := UpgradeKind.prestige }

/-- A service state with unacknowledged clicks and a spendable balance
below the lifetime total. -/
def regressService : Service :=
  { sampleService with
    pendingClicks := 5
    gameState := { baseState with bananas := 80, totalBananasEarned := 100 } }

/-- A service state that has been away for 100 seconds with a passive
rate of 2 per second. -/
def offlineService : Service :=
  { sampleService with
    gameState :=
      { baseState with bananas := 0, totalBananasEarned := 0, bananasPerSecond := 2 } }

/-- A two-phase sync system state with unacknowledged clicks and no
request outstanding. -/
def busySyncSys : SyncSys :=
  { svc := { sampleService with pendingClicks := 5 }, inFlight := 0 }

/-- Frame property of the failure paths of every remote operation: a
transport failure or a server rejection leaves the whole service state
(including pendingClicks) unchanged, reports failure with a message to
the caller, and issues at most one request (no retry). -/
def RemoteFailureFrame (s : Service) (now : ℚ) (upgradeId nm : String)
    (rs : SyncResponse) (ru : UpgradeResponse) (rp : PrestigeResponse)
    (rr : ResetResponse) (rb : SubmitScoreResponse) : Prop :=
  (syncWithServer s now (Except.error ())).1 = s ∧
  (syncWithServer s now (Except.ok rs)).1 = s ∧
  (syncWithServer s now (Except.error ())).2 ≤ 1 ∧
  (buyUpgrade s upgradeId (Except.error ())).1 = s ∧
  (buyUpgrade s upgradeId (Except.error ())).2.1.success = false ∧
  (buyUpgrade s upgradeId (Except.error ())).2.1.message.isSome = true ∧
  (buyUpgrade s upgradeId (Except.ok ru)).1 = s ∧
  (buyUpgrade s upgradeId (Except.ok ru)).2.1.success = false ∧
  (ru.message.isSome = true →
    (buyUpgrade s upgradeId (Except.ok ru)).2.1.message.isSome = true) ∧
  (buyUpgrade s upgradeId (Except.error ())).2.2 ≤ 1 ∧
  (prestige s (Except.error ())).1 = s ∧
  (prestige s (Except.error ())).2.1.success = false ∧
  (prestige s (Except.ok rp)).1 = s ∧
  (prestige s (Except.ok rp)).2.1.success = false ∧
  (prestige s (Except.error ())).2.2 ≤ 1 ∧
  (resetGame s (Except.error ())).1 = s ∧
  (resetGame s (Except.ok rr)).1 = s ∧
  (submitScore s nm now (Except.error ()) (Except.error ())).1 = s ∧
  (submitScore s nm now (Except.error ()) (Except.ok rb)).1 = s ∧
  (submitScore s nm now (Except.error ()) (Except.ok rb)).2.1.success = false

/-- Monotonicity outcome of a run: the lifetime total never decreases,
and the lifetime-total bound on the spendable balance is preserved. -/
def MonotoneOutcome (s : Service) (steps : List Step) : Prop :=
  s.gameState.totalBananasEarned ≤ (run s steps).gameState.totalBananasEarned ∧
  (s.gameState.bananas ≤ s.gameState.totalBananasEarned →
    (run s steps).gameState.bananas ≤ (run s steps).gameState.totalBananasEarned)

end EnhancedGame

namespace GameService

/-- calculateUpgradeCost of game.ts: Math.floor(baseCost * 1.15 ^ owned),
no tier distinction. -/
def calculateUpgradeCost (baseCost : ℚ) (owned : ℕ) : ℚ :=
  (⌊baseCost * (1.15 : ℚ) ^ owned⌋ : ℤ)

end GameService

namespace EnhancedGame

/-- checkNewAchievements never touches the pendingClicks counter. -/
theorem checkNewAchievements_pendingClicks (s : Service) (l : List Achievement) :
    (checkNewAchievements s l).pendingClicks = s.pendingClicks := by
  unfold checkNewAchievements
  dsimp only
  split <;> rfl

/-- The state mutation of calculateOfflineEarnings adds exactly the
offlineEarningsAward of the elapsed seconds to the spendable balance
and to the lifetime total. -/
theorem calculateOfflineEarnings_award (s : Service) (now : ℚ) :
    (calculateOfflineEarnings s now).gameState.bananas =
      s.gameState.bananas +
        (offlineEarningsAward ((now - s.gameState.lastSyncTime) / 1000)
          s.gameState.bananasPerSecond 28800 : ℤ) ∧
    (calculateOfflineEarnings s now).gameState.totalBananasEarned =
      s.gameState.totalBananasEarned +
        (offlineEarningsAward ((now - s.gameState.lastSyncTime) / 1000)
          s.gameState.bananasPerSecond 28800 : ℤ) := by
  have h860 : (8 * 60 * 60 : ℚ) = 28800 := by norm_num
  unfold calculateOfflineEarnings offlineEarningsAward
  rw [h860]
  by_cases hgate : 60 < (now - s.gameState.lastSyncTime) / 1000 ∧
      0 < s.gameState.bananasPerSecond
  · by_cases hpos : 0 < ⌊min ((now - s.gameState.lastSyncTime) / 1000) 28800 *
        s.gameState.bananasPerSecond⌋
    · simp [hgate, hpos]
    · have hge : (0 : ℤ) ≤ ⌊min ((now - s.gameState.lastSyncTime) / 1000) 28800 *
          s.gameState.bananasPerSecond⌋ := by
        apply Int.floor_nonneg.mpr
        apply le_of_lt
        apply mul_pos _ hgate.2
        exact lt_min (by linarith [hgate.1]) (by norm_num)
      have hz : ⌊min ((now - s.gameState.lastSyncTime) / 1000) 28800 *
          s.gameState.bananasPerSecond⌋ = 0 := le_antisymm (not_lt.mp hpos) hge
      simp [hgate, hpos, hz]
  · simp [hgate]

/-- C3: the offline-earnings computation awards
floor(min(elapsedSeconds, 28800) * ratePerSecond) when more than 60
seconds elapsed and the passive rate is positive, awards nothing at or
below 60 seconds, satisfies the three quoted examples, and is exactly
the amount calculateOfflineEarnings adds to the balance and to the
lifetime total. -/
theorem offline_earnings_formula (elapsedSeconds ratePerSecond : ℚ)
    (s : Service) (now : ℚ) :
    (60 < elapsedSeconds → 0 < ratePerSecond →
      offlineEarningsAward elapsedSeconds ratePerSecond 28800 =
        ⌊min elapsedSeconds 28800 * ratePerSecond⌋) ∧
    (elapsedSeconds ≤ 60 →
      offlineEarningsAward elapsedSeconds ratePerSecond 28800 = 0) ∧
    offlineEarningsAward 3600 2 28800 = 7200 ∧
    offlineEarningsAward 30 5 28800 = 0 ∧
    offlineEarningsAward 100000 1 28800 = 28800 ∧
    (calculateOfflineEarnings s now).gameState.bananas =
      s.gameState.bananas +
        (offlineEarningsAward ((now - s.gameState.lastSyncTime) / 1000)
          s.gameState.bananasPerSecond 28800 : ℤ) ∧
    (calculateOfflineEarnings s now).gameState.totalBananasEarned =
      s.gameState.totalBananasEarned +
        (offlineEarningsAward ((now - s.gameState.lastSyncTime) / 1000)
          s.gameState.bananasPerSecond 28800 : ℤ) := by
  refine ⟨?_, ?_, ?_, ?_, ?_,
    (calculateOfflineEarnings_award s now).1, (calculateOfflineEarnings_award s now).2⟩
  · intro h1 h2
    simp [offlineEarningsAward, h1, h2]
  · intro h
    have hc : ¬(60 < elapsedSeconds ∧ 0 < ratePerSecond) :=
      fun hc => absurd hc.1 (not_lt.mpr h)
    simp [offlineEarningsAward, hc]
  · unfold offlineEarningsAward
    norm_num
  · unfold offlineEarningsAward
    norm_num
  · unfold offlineEarningsAward
    norm_num

/-- Witness for C3 at elapsed 3600 and 30 seconds with rate 2. -/
theorem offline_earnings_formula_witness :
    offlineEarningsAward 3600 2 28800 = ⌊min (3600 : ℚ) 28800 * 2⌋ ∧
    offlineEarningsAward 30 2 28800 = 0 :=
  ⟨(offline_earnings_formula 3600 2 sampleService 0).1 (by norm_num) (by norm_num),
   (offline_earnings_formula 30 2 sampleService 0).2.1 (by norm_num)⟩

end EnhancedGame

namespace EnhancedGame

/-- C7: for a non-prestige tier the purchase cost is
floor(baseCost * 1.15 ^ ownedCount) and is monotonically non-decreasing
in ownedCount (for a non-negative base cost); for the prestige tier the
cost is the flat baseCost whatever ownedCount is.  The game.ts variant
computes the same scaling formula for every upgrade. -/
theorem upgrade_cost_curve (u : UpgradeType) (m n : ℕ) (hmn : m ≤ n)
    (hbase : 0 ≤ u.baseCost) :
    (u.type ≠ UpgradeKind.prestige →
      calculateUpgradeCost u = ((⌊u.baseCost * (1.15 : ℚ) ^ u.owned⌋ : ℤ) : ℚ)) ∧
    (u.type ≠ UpgradeKind.prestige →
      calculateUpgradeCost { u with owned := m } ≤
        calculateUpgradeCost { u with owned := n }) ∧
    (u.type = UpgradeKind.prestige →
      calculateUpgradeCost { u with owned := m } = u.baseCost) ∧
    GameService.calculateUpgradeCost u.baseCost n =
      ((⌊u.baseCost * (1.15 : ℚ) ^ n⌋ : ℤ) : ℚ) := by
  refine ⟨?_, ?_, ?_, rfl⟩
  · intro h
    simp [calculateUpgradeCost, h]
  · intro h
    have hpow : (1.15 : ℚ) ^ m ≤ (1.15 : ℚ) ^ n := pow_le_pow_right₀ (by norm_num) hmn
    have hmul : u.baseCost * (1.15 : ℚ) ^ m ≤ u.baseCost * (1.15 : ℚ) ^ n :=
      mul_le_mul_of_nonneg_left hpow hbase
    simp [calculateUpgradeCost, h]
    exact_mod_cast Int.floor_mono hmul
  · intro h
    simp [calculateUpgradeCost, h]

/-- Witness for C7 on a concrete standard upgrade (owned 1 against 2)
and a concrete prestige upgrade. -/
theorem upgrade_cost_curve_witness :
    calculateUpgradeCost sampleUpgrade =
      ((⌊sampleUpgrade.baseCost * (1.15 : ℚ) ^ sampleUpgrade.owned⌋ : ℤ) : ℚ) ∧
    calculateUpgradeCost { sampleUpgrade with owned := 1 } ≤
      calculateUpgradeCost { sampleUpgrade with owned := 2 } ∧
    calculateUpgradeCost { samplePrestigeUpgrade with owned := 3 } =
      samplePrestigeUpgrade.baseCost := by
  have h1 := upgrade_cost_curve sampleUpgrade 1 2 (by norm_num) (by norm_num [sampleUpgrade])
  have h2 := upgrade_cost_curve samplePrestigeUpgrade 3 7 (by norm_num)
    (by norm_num [samplePrestigeUpgrade, sampleUpgrade])
  refine ⟨h1.1 (by simp [sampleUpgrade]), h1.2.1 (by simp [sampleUpgrade]),
    h2.2.2.1 (by simp [samplePrestigeUpgrade])⟩

/-- C8: while the click cooldown is active, handleClick returns the
state unchanged (in particular bananas, totalClicks,
totalBananasEarned and pendingClicks keep their values), triggers no
sync, and being a total function it surfaces no error. -/
theorem click_dropped_while_cooling (s : Service) (h : s.clickCooldown = true) :
    handleClick s = (s, false) ∧
    (handleClick s).1.gameState.bananas = s.gameState.bananas ∧
    (handleClick s).1.gameState.totalClicks = s.gameState.totalClicks ∧
    (handleClick s).1.gameState.totalBananasEarned = s.gameState.totalBananasEarned ∧
    (handleClick s).1.pendingClicks = s.pendingClicks := by
  have h0 : handleClick s = (s, false) := by
    unfold handleClick
    simp [h]
  exact ⟨h0, by rw [h0], by rw [h0], by rw [h0], by rw [h0]⟩

/-- Witness for C8 on a concrete cooling service state. -/
theorem click_dropped_while_cooling_witness :
    handleClick { sampleService with clickCooldown := true } =
      ({ sampleService with clickCooldown := true }, false) :=
  (click_dropped_while_cooling { sampleService with clickCooldown := true } rfl).1

/-- C9: formatNumber is a total function on the rationals and, for a
non-negative input, renders the value scaled by 10 ^ 9 with suffix B
and two decimals from 1,000,000,000 upward, the value scaled by 10 ^ 6
with suffix M and two decimals from 1,000,000 upward, the value scaled
by 10 ^ 3 with suffix K and one decimal from 1,000 upward, and the
floored integer below that; formatNumber 1500000 = "1.50M". -/
theorem formatNumber_buckets (q : ℚ) (hq : 0 ≤ q) :
    ((1000000000 : ℚ) ≤ q → formatNumber q = toFixed2 (q / 1000000000) ++ "B") ∧
    ((1000000 : ℚ) ≤ q → q < 1000000000 →
      formatNumber q = toFixed2 (q / 1000000) ++ "M") ∧
    ((1000 : ℚ) ≤ q → q < 1000000 → formatNumber q = toFixed1 (q / 1000) ++ "K") ∧
    (q < 1000 → formatNumber q = toString ⌊q⌋) ∧
    formatNumber 1500000 = "1.50M" := by
  refine ⟨?_, ?_, ?_, ?_, ?_⟩
  · intro h
    unfold formatNumber
    rw [if_pos h]
  · intro h1 h2
    unfold formatNumber
    rw [if_neg (not_le.mpr h2), if_pos h1]
  · intro h1 h2
    unfold formatNumber
    rw [if_neg (not_le.mpr (lt_of_lt_of_le h2 (by norm_num))),
      if_neg (not_le.mpr h2), if_pos h1]
  · intro h
    unfold formatNumber
    rw [if_neg (not_le.mpr (lt_of_lt_of_le h (by norm_num))),
      if_neg (not_le.mpr (lt_of_lt_of_le h (by norm_num))), if_neg (not_le.mpr h)]
  · unfold formatNumber toFixed2 padTwo
    norm_num
    rfl

/-- Witness for C9 at 1,500,000. -/
theorem formatNumber_buckets_witness :
    formatNumber 1500000 = toFixed2 ((1500000 : ℚ) / 1000000) ++ "M" ∧
    formatNumber 1500000 = "1.50M" := by
  have h := formatNumber_buckets 1500000 (by norm_num)
  exact ⟨h.2.1 (by norm_num) (by norm_num), h.2.2.2.2⟩

/-- C10: below one billion lifetime bananas, prestige fails locally
with zero currency gained and issues no request; at or above the
threshold it issues exactly one request; canPrestige is exactly the
one-billion test and the advertised reward is
floor(totalBananasEarned / 100,000,000). -/
theorem prestige_threshold (s : Service) (t : Transport PrestigeResponse) :
    (s.gameState.totalBananasEarned < 1000000000 →
      prestige s t = (s, ⟨false, 0, "Need 1 billion lifetime bananas"⟩, 0)) ∧
    ((1000000000 : ℚ) ≤ s.gameState.totalBananasEarned →
      (prestige s t).2.2 = 1) ∧
    (canPrestige s.gameState = true ↔
      (1000000000 : ℚ) ≤ s.gameState.totalBananasEarned) ∧
    prestigeDNAReward s.gameState = ⌊s.gameState.totalBananasEarned / 100000000⌋ := by
  refine ⟨?_, ?_, ?_, rfl⟩
  · intro h
    have hc : canPrestige s.gameState = false := by
      unfold canPrestige
      simp only [decide_eq_false_iff_not]
      exact not_le.mpr h
    simp [prestige, hc]
  · intro h
    have hc : canPrestige s.gameState = true := by
      unfold canPrestige
      simpa using h
    cases t with
    | error e => simp [prestige, hc]
    | ok r =>
      by_cases hr : r.success
      · simp [prestige, hc, hr]
      · simp [prestige, hc, hr]
  · unfold canPrestige
    simp

/-- Witness for C10: a 100-banana lifetime total fails locally with no
request; a two-billion total issues one request. -/
theorem prestige_threshold_witness :
    prestige sampleService (Except.error ()) =
      (sampleService, ⟨false, 0, "Need 1 billion lifetime bananas"⟩, 0) ∧
    (prestige { sampleService with
        gameState := { baseState with totalBananasEarned := 2000000000 } }
      (Except.error ())).2.2 = 1 := by
  refine ⟨(prestige_threshold sampleService (Except.error ())).1
      (by norm_num [sampleService, baseState]),
    (prestige_threshold { sampleService with
        gameState := { baseState with totalBananasEarned := 2000000000 } }
      (Except.error ())).2.1 (by norm_num [sampleService, baseState])⟩

end EnhancedGame

namespace EnhancedGame

/-- C1 counterexample: a successful upgrade purchase replaces the local
game state with the authoritative response, yet the pending-click
counter stays at 3 rather than 0, so the claim fails for the upgrade
(and likewise prestige and reset) replacement operations. -/
theorem upgrade_replacement_keeps_pending_counter :
    (buyUpgrade { sampleService with pendingClicks := 3 } "u1"
      (Except.ok okUpgradeResponse)).2.1.success = true ∧
    (buyUpgrade { sampleService with pendingClicks := 3 } "u1"
      (Except.ok okUpgradeResponse)).1.gameState = okUpgradeResponse.gameState ∧
    (buyUpgrade { sampleService with pendingClicks := 3 } "u1"
      (Except.ok okUpgradeResponse)).1.pendingClicks = 3 := by
  have hk : (UpgradeKind.click = UpgradeKind.prestige) = False := by
    simp
  refine ⟨?_, ?_, ?_⟩ <;>
    norm_num [buyUpgrade, sampleService, calculateUpgradeCost, canAffordUpgrade,
      baseState, sampleUpgrade, okUpgradeResponse, checkNewAchievements, hk]

/-- C1 amended: only a successful sync resets the pending-click counter
to 0 (including the case where the staleness guard skipped a sync that
had nothing pending); the upgrade, prestige and reset operations leave
the counter unchanged whatever their outcome. -/
theorem pending_counter_reset_only_by_sync (s : Service) (now : ℚ)
    (r : SyncResponse) (hr : r.success = true) (upgradeId : String)
    (tu : Transport UpgradeResponse) (tp : Transport PrestigeResponse)
    (tr : Transport ResetResponse) :
    (syncWithServer s now (Except.ok r)).1.pendingClicks = 0 ∧
    (buyUpgrade s upgradeId tu).1.pendingClicks = s.pendingClicks ∧
    (prestige s tp).1.pendingClicks = s.pendingClicks ∧
    (resetGame s tr).1.pendingClicks = s.pendingClicks := by
  refine ⟨?_, ?_, ?_, ?_⟩
  · unfold syncWithServer
    by_cases hg : s.pendingClicks = 0 ∧ now - s.lastSync < 10000
    · simp [hg, hg.1]
    · simp [hg, hr]
  · unfold buyUpgrade
    cases hl : s.upgrades.lookup upgradeId with
    | none => rfl
    | some u =>
      dsimp only
      by_cases ha : (!canAffordUpgrade s.gameState (calculateUpgradeCost u)
          (decide (u.type = UpgradeKind.prestige))) = true
      · simp [ha]
      · simp only [ha, if_neg, Bool.not_eq_true] at *
        cases tu with
        | error e => simp [ha]
        | ok ru =>
          by_cases hru : ru.success
          · simp [ha, hru, checkNewAchievements_pendingClicks]
          · simp [ha, hru]
  · unfold prestige
    by_cases hc : (!canPrestige s.gameState) = true
    · simp [hc]
    · cases tp with
      | error e => simp [hc]
      | ok rp =>
        by_cases hrp : rp.success
        · simp [hc, hrp]
        · simp [hc, hrp]
  · unfold resetGame
    cases tr with
    | error e => rfl
    | ok rr =>
      by_cases hrr : rr.success
      · simp [hrr]
      · simp [hrr]

/-- Witness for the amended C1 on a concrete service with five pending
clicks and a successful sync response. -/
theorem pending_counter_reset_only_by_sync_witness :
    (syncWithServer regressService 20000 (Except.ok regressingSyncResponse)).1.pendingClicks = 0 ∧
    (buyUpgrade regressService "u1" (Except.error ())).1.pendingClicks =
      regressService.pendingClicks ∧
    (prestige regressService (Except.error ())).1.pendingClicks =
      regressService.pendingClicks ∧
    (resetGame regressService (Except.error ())).1.pendingClicks =
      regressService.pendingClicks :=
  pending_counter_reset_only_by_sync regressService 20000 regressingSyncResponse rfl
    "u1" (Except.error ()) (Except.error ()) (Except.error ())

end EnhancedGame

namespace EnhancedGame

/-- A transport failure of buyUpgrade leaves the service unchanged,
reports a failure with a message, and issues at most one request. -/
theorem buyUpgrade_error_frame (s : Service) (upgradeId : String) :
    (buyUpgrade s upgradeId (Except.error ())).1 = s ∧
    (buyUpgrade s upgradeId (Except.error ())).2.1.success = false ∧
    (buyUpgrade s upgradeId (Except.error ())).2.1.message.isSome = true ∧
    (buyUpgrade s upgradeId (Except.error ())).2.2 ≤ 1 := by
  unfold buyUpgrade
  cases hl : s.upgrades.lookup upgradeId with
  | none => simp
  | some u =>
    dsimp only
    by_cases ha : (!canAffordUpgrade s.gameState (calculateUpgradeCost u)
        (decide (u.type = UpgradeKind.prestige))) = true
    · simp [ha]
    · simp [ha]

/-- A server-rejected buyUpgrade leaves the service unchanged, reports
failure, and passes a server-provided message through to the caller. -/
theorem buyUpgrade_reject_frame (s : Service) (upgradeId : String)
    (ru : UpgradeResponse) (hru : ru.success = false) :
    (buyUpgrade s upgradeId (Except.ok ru)).1 = s ∧
    (buyUpgrade s upgradeId (Except.ok ru)).2.1.success = false ∧
    (ru.message.isSome = true →
      (buyUpgrade s upgradeId (Except.ok ru)).2.1.message.isSome = true) := by
  unfold buyUpgrade
  cases hl : s.upgrades.lookup upgradeId with
  | none => simp
  | some u =>
    dsimp only
    by_cases ha : (!canAffordUpgrade s.gameState (calculateUpgradeCost u)
        (decide (u.type = UpgradeKind.prestige))) = true
    · simp [ha]
    · simp [ha, hru]

/-- A transport failure of syncWithServer leaves the service unchanged
and issues at most one request. -/
theorem syncWithServer_error_frame (s : Service) (now : ℚ) :
    (syncWithServer s now (Except.error ())).1 = s ∧
    (syncWithServer s now (Except.error ())).2 ≤ 1 := by
  unfold syncWithServer
  by_cases hg : s.pendingClicks = 0 ∧ now - s.lastSync < 10000
  · simp [hg]
  · simp [hg]

/-- A server-rejected sync leaves the service unchanged. -/
theorem syncWithServer_reject_frame (s : Service) (now : ℚ)
    (rs : SyncResponse) (hrs : rs.success = false) :
    (syncWithServer s now (Except.ok rs)).1 = s := by
  unfold syncWithServer
  by_cases hg : s.pendingClicks = 0 ∧ now - s.lastSync < 10000
  · simp [hg]
  · simp [hg, hrs]

/-- Failed prestige attempts leave the service unchanged. -/
theorem prestige_failure_frame (s : Service) (rp : PrestigeResponse)
    (hrp : rp.success = false) :
    (prestige s (Except.error ())).1 = s ∧
    (prestige s (Except.error ())).2.1.success = false ∧
    (prestige s (Except.ok rp)).1 = s ∧
    (prestige s (Except.ok rp)).2.1.success = false ∧
    (prestige s (Except.error ())).2.2 ≤ 1 := by
  unfold prestige
  by_cases hc : (!canPrestige s.gameState) = true
  · simp [hc]
  · simp [hc, hrp]

/-- Failed resets leave the service unchanged. -/
theorem resetGame_failure_frame (s : Service) (rr : ResetResponse)
    (hrr : rr.success = false) :
    (resetGame s (Except.error ())).1 = s ∧
    (resetGame s (Except.ok rr)).1 = s := by
  unfold resetGame
  simp [hrr]

/-- Failed score submissions (after a failed forced sync) leave the
service unchanged and report failure. -/
theorem submitScore_failure_frame (s : Service) (nm : String) (now : ℚ)
    (rb : SubmitScoreResponse) (hrb : rb.success = false) :
    (submitScore s nm now (Except.error ()) (Except.error ())).1 = s ∧
    (submitScore s nm now (Except.error ()) (Except.ok rb)).1 = s ∧
    (submitScore s nm now (Except.error ()) (Except.ok rb)).2.1.success = false := by
  have hs := (syncWithServer_error_frame s now).1
  unfold submitScore
  by_cases ht : nm.trim = ""
  · simp [ht]
  · simp [ht, hs, hrb]

/-- C2: for every remote operation (sync, upgrade purchase, prestige,
reset, submit-score), a transport failure or a server rejection leaves
the whole service state - pending-click counter included - unchanged,
the result reports failure with a message rather than an exception
(every modelled operation is a total function), and each attempt issues
at most one request (no retry within the operation). -/
theorem remote_failures_change_nothing (s : Service) (now : ℚ)
    (upgradeId nm : String) (rs : SyncResponse) (ru : UpgradeResponse)
    (rp : PrestigeResponse) (rr : ResetResponse) (rb : SubmitScoreResponse)
    (hrs : rs.success = false) (hru : ru.success = false)
    (hrp : rp.success = false) (hrr : rr.success = false)
    (hrb : rb.success = false) :
    RemoteFailureFrame s now upgradeId nm rs ru rp rr rb := by
  have h1 := syncWithServer_error_frame s now
  have h2 := syncWithServer_reject_frame s now rs hrs
  have h3 := buyUpgrade_error_frame s upgradeId
  have h4 := buyUpgrade_reject_frame s upgradeId ru hru
  have h5 := prestige_failure_frame s rp hrp
  have h6 := resetGame_failure_frame s rr hrr
  have h7 := submitScore_failure_frame s nm now rb hrb
  exact ⟨h1.1, h2, h1.2, h3.1, h3.2.1, h3.2.2.1, h4.1, h4.2.1, h4.2.2,
    h3.2.2.2, h5.1, h5.2.1, h5.2.2.1, h5.2.2.2.1, h5.2.2.2.2, h6.1, h6.2,
    h7.1, h7.2.1, h7.2.2⟩

/-- Witness for C2 on a concrete service and concrete rejected
responses. -/
theorem remote_failures_change_nothing_witness :
    RemoteFailureFrame sampleService 0 "u1" "bob" failSyncResponse
      failUpgradeResponse failPrestigeResponse failResetResponse failSubmitResponse :=
  remote_failures_change_nothing sampleService 0 "u1" "bob" failSyncResponse
    failUpgradeResponse failPrestigeResponse failResetResponse failSubmitResponse
    rfl rfl rfl rfl rfl

end EnhancedGame

namespace EnhancedGame

/-- Every local step (click, cooldown expiry, passive tick, offline
award) preserves the per-click rate, never decreases the lifetime
total, and keeps the difference between the spendable balance and the
lifetime total fixed. -/
theorem applyStep_local_frame (s : Service) (st : Step) (hl : st.isLocal)
    (hbpc : 0 ≤ s.gameState.bananasPerClick) :
    (applyStep s st).gameState.bananasPerClick = s.gameState.bananasPerClick ∧
    s.gameState.totalBananasEarned ≤ (applyStep s st).gameState.totalBananasEarned ∧
    (applyStep s st).gameState.bananas - (applyStep s st).gameState.totalBananasEarned =
      s.gameState.bananas - s.gameState.totalBananasEarned := by
  cases st with
  | click =>
    unfold applyStep handleClick
    by_cases hc : s.clickCooldown = true
    · simp [hc]
    · simp only [Bool.not_eq_true] at hc
      simp [hc]
      exact hbpc
  | cooldownEnd =>
    unfold applyStep cooldownExpire
    simp
  | tick =>
    unfold applyStep autoGenerationTick
    by_cases hb : 0 < s.gameState.bananasPerSecond
    · simp [hb]
      exact le_of_lt hb
    · simp [hb]
  | offline now =>
    unfold applyStep
    have h := calculateOfflineEarnings_award s now
    refine ⟨?_, ?_, ?_⟩
    · unfold calculateOfflineEarnings
      dsimp only
      split
      · split
        · rfl
        · rfl
      · rfl
    · rw [h.2]
      have hz : (0 : ℤ) ≤ offlineEarningsAward ((now - s.gameState.lastSyncTime) / 1000)
          s.gameState.bananasPerSecond 28800 := by
        unfold offlineEarningsAward
        split
        · rename_i hg
          exact Int.floor_nonneg.mpr (le_of_lt (mul_pos
            (lt_min (by linarith [hg.1]) (by norm_num)) hg.2))
        · exact le_refl 0
      have hcast : (0 : ℚ) ≤ (offlineEarningsAward ((now - s.gameState.lastSyncTime) / 1000)
          s.gameState.bananasPerSecond 28800 : ℤ) := by
        exact_mod_cast hz
      linarith
    · rw [h.1, h.2]
      ring
  | sync now t => exact absurd hl (by simp [Step.isLocal])
  | buy upgradeId t => exact absurd hl (by simp [Step.isLocal])
  | doPrestige t => exact absurd hl (by simp [Step.isLocal])
  | doReset t => exact absurd hl (by simp [Step.isLocal])

/-- C4 amended: across any sequence of local operations (direct
interactions, cooldown expiries, passive ticks, offline awards), with
a non-negative per-click rate, the lifetime total never decreases and
the invariant totalBananasEarned at least bananas is preserved; across
an authoritative replacement (sync, purchase, prestige, reset) both
fields are overwritten by the server response, which need not respect
either property. -/
theorem totalEarned_monotone_local (s : Service) (steps : List Step)
    (hloc : ∀ st ∈ steps, st.isLocal)
    (hbpc : 0 ≤ s.gameState.bananasPerClick) :
    MonotoneOutcome s steps := by
  have key : ∀ (l : List Step) (x : Service), (∀ st ∈ l, st.isLocal) →
      0 ≤ x.gameState.bananasPerClick →
      (run x l).gameState.bananasPerClick = x.gameState.bananasPerClick ∧
      x.gameState.totalBananasEarned ≤ (run x l).gameState.totalBananasEarned ∧
      (run x l).gameState.bananas - (run x l).gameState.totalBananasEarned =
        x.gameState.bananas - x.gameState.totalBananasEarned := by
    intro l
    induction l with
    | nil =>
      intro x _ _
      exact ⟨rfl, le_refl _, rfl⟩
    | cons st rest ih =>
      intro x hall hx
      have h1 := applyStep_local_frame x st (hall st (by simp)) hx
      have hrest := ih (applyStep x st) (fun a ha => hall a (by simp [ha]))
        (h1.1 ▸ hx)
      have hrun : run x (st :: rest) = run (applyStep x st) rest := rfl
      rw [hrun]
      refine ⟨by rw [hrest.1, h1.1], le_trans h1.2.1 hrest.2.1, ?_⟩
      rw [hrest.2.2, h1.2.2]
  have h := key steps s hloc hbpc
  exact ⟨h.2.1, fun hinv => by linarith [h.2.2]⟩

/-- Witness for the amended C4 on a concrete four-step local run. -/
theorem totalEarned_monotone_local_witness :
    MonotoneOutcome sampleService
      [Step.click, Step.cooldownEnd, Step.tick, Step.offline 200000] :=
  totalEarned_monotone_local sampleService
    [Step.click, Step.cooldownEnd, Step.tick, Step.offline 200000]
    (by
      intro st hst
      simp only [List.mem_cons, List.not_mem_nil, or_false] at hst
      rcases hst with rfl | rfl | rfl | rfl <;> trivial)
    (by norm_num [sampleService, baseState])

/-- C4 counterexample: a single successful resync adopts a server state
whose lifetime total (50) is below the optimistic lifetime total (100)
and below its own spendable balance (60), so totalBananasEarned
decreases across a resync and the claimed invariant fails at the next
observable point. -/
theorem totalEarned_regresses_on_resync :
    (run regressService
      [Step.sync 0 (Except.ok regressingSyncResponse)]).gameState.totalBananasEarned <
      regressService.gameState.totalBananasEarned ∧
    (run regressService
      [Step.sync 0 (Except.ok regressingSyncResponse)]).gameState.totalBananasEarned <
      (run regressService
        [Step.sync 0 (Except.ok regressingSyncResponse)]).gameState.bananas := by
  have hrun : run regressService [Step.sync 0 (Except.ok regressingSyncResponse)] =
      (syncWithServer regressService 0 (Except.ok regressingSyncResponse)).1 := rfl
  rw [hrun]
  norm_num [syncWithServer, regressService, sampleService, baseState,
    regressingSyncResponse, checkNewAchievements]

end EnhancedGame

namespace EnhancedGame

/-- C5 failing run: the source calls calculateOfflineEarnings from
initGame and again from a constructor effect that re-fires on every
game-state change while the passive rate is positive.  Since the
function never advances lastSyncTime, the effect firing right after
the first award finds the same elapsed gap and awards the same 200
bananas again (100 seconds at rate 2, awarded at init and re-awarded by
the effect), refuting the runs-exactly-once claim. -/
theorem offline_earnings_reapplied :
    (calculateOfflineEarnings offlineService 100000).gameState.bananas = 200 ∧
    (calculateOfflineEarnings (calculateOfflineEarnings offlineService 100000)
      100000).gameState.bananas = 400 ∧
    (calculateOfflineEarnings offlineService 100000).gameState.lastSyncTime =
      offlineService.gameState.lastSyncTime := by
  have h1 : calculateOfflineEarnings offlineService 100000 =
      { offlineService with
        gameState :=
          { offlineService.gameState with bananas := 200, totalBananasEarned := 200 } } := by
    norm_num [calculateOfflineEarnings, offlineService, sampleService, baseState]
  rw [h1]
  norm_num [calculateOfflineEarnings, offlineService, sampleService, baseState]

/-- C6 counterexample: from a state with five unacknowledged clicks and
no request outstanding, two trigger events in a row both pass the
staleness guard, leaving two sync requests in flight at once - the
source has no in-flight flag and drops nothing while a sync is
pending. -/
theorem sync_attempts_overlap :
    (syncSysRun busySyncSys [SyncEvent.trigger 0, SyncEvent.trigger 1]).inFlight = 2 := by
  norm_num [syncSysRun, syncSysStep, busySyncSys, sampleService, baseState, List.foldl]

/-- C6 amended: the only admission control on a sync attempt is the
staleness guard (skip when nothing is pending and under 10 seconds
passed since the last recorded sync); whenever that guard passes, a
trigger issues a fresh request regardless of how many are already in
flight, so concurrent sync attempts can overlap. -/
theorem trigger_during_pending_not_dropped (sys : SyncSys) (now : ℚ)
    (hguard : ¬(sys.svc.pendingClicks = 0 ∧ now - sys.svc.lastSync < 10000)) :
    (syncSysStep sys (SyncEvent.trigger now)).inFlight = sys.inFlight + 1 ∧
    (syncSysStep sys (SyncEvent.trigger now)).svc = sys.svc := by
  unfold syncSysStep
  simp [hguard]

/-- Witness for the amended C6: a trigger arriving while one request is
already in flight issues a second one. -/
theorem trigger_during_pending_not_dropped_witness :
    (syncSysStep { busySyncSys with inFlight := 1 }
      (SyncEvent.trigger 0)).inFlight = 2 ∧
    (syncSysStep { busySyncSys with inFlight := 1 }
      (SyncEvent.trigger 0)).svc = busySyncSys.svc :=
  trigger_during_pending_not_dropped { busySyncSys with inFlight := 1 } 0
    (by simp [busySyncSys, sampleService])

end EnhancedGame
